import Mathlib

/-!
Verification of the CS330 `ViewManager` camera/view controller
(src/ViewManager.cpp), shallowly embedded over the real numbers
(real arithmetic models the C++ float/double computations).
-/

namespace ViewMgr

open Real

/-- 3-component vector, modelling `glm::vec3`. -/
@[ext]
structure Vec3 where
  x : ℝ
  y : ℝ
  z : ℝ

instance : Add Vec3 := ⟨fun a b => ⟨a.x + b.x, a.y + b.y, a.z + b.z⟩⟩

instance : Sub Vec3 := ⟨fun a b => ⟨a.x - b.x, a.y - b.y, a.z - b.z⟩⟩

instance : SMul ℝ Vec3 := ⟨fun c v => ⟨c * v.x, c * v.y, c * v.z⟩⟩

@[simp] lemma add_x (a b : Vec3) : (a + b).x = a.x + b.x := rfl

@[simp] lemma add_y (a b : Vec3) : (a + b).y = a.y + b.y := rfl

@[simp] lemma add_z (a b : Vec3) : (a + b).z = a.z + b.z := rfl

@[simp] lemma sub_x (a b : Vec3) : (a - b).x = a.x - b.x := rfl

@[simp] lemma sub_y (a b : Vec3) : (a - b).y = a.y - b.y := rfl

@[simp] lemma sub_z (a b : Vec3) : (a - b).z = a.z - b.z := rfl

@[simp] lemma smul_x (c : ℝ) (v : Vec3) : (c • v).x = c * v.x := rfl

@[simp] lemma smul_y (c : ℝ) (v : Vec3) : (c • v).y = c * v.y := rfl

@[simp] lemma smul_z (c : ℝ) (v : Vec3) : (c • v).z = c * v.z := rfl

/-- Dot product of two vectors, modelling `glm::dot`. -/
def dot (a b : Vec3) : ℝ :=
  a.x * b.x + a.y * b.y + a.z * b.z

/-- Cross product, modelling `glm::cross`. -/
def cross (a b : Vec3) : Vec3 :=
  ⟨a.y * b.z - a.z * b.y, a.z * b.x - a.x * b.z, a.x * b.y - a.y * b.x⟩

/-- Euclidean length, modelling `glm::length`. -/
noncomputable def norm (v : Vec3) : ℝ :=
  Real.sqrt (dot v v)

/-- Normalization `v / length v`, modelling `glm::normalize`
(componentwise division by the length). -/
noncomputable def normalize (v : Vec3) : Vec3 :=
  ⟨v.x / norm v, v.y / norm v, v.z / norm v⟩

/-- Degrees-to-radians conversion, modelling `glm::radians`. -/
noncomputable def radians (d : ℝ) : ℝ :=
  d * Real.pi / 180

/-- 4x4 matrix, modelling `glm::mat4`.  Field `mIJ` is the glm
column-major entry `Result[I][J]` (column `I`, row `J`). -/
@[ext]
structure Mat4 where
  m00 : ℝ
  m01 : ℝ
  m02 : ℝ
  m03 : ℝ
  m10 : ℝ
  m11 : ℝ
  m12 : ℝ
  m13 : ℝ
  m20 : ℝ
  m21 : ℝ
  m22 : ℝ
  m23 : ℝ
  m30 : ℝ
  m31 : ℝ
  m32 : ℝ
  m33 : ℝ

/-- Right-handed look-at matrix, modelling `glm::lookAt` (`lookAtRH`):
`f = normalize(center - eye)`, `s = normalize(cross(f, up))`,
`u = cross(s, f)`. -/
noncomputable def lookAt (eye center up : Vec3) : Mat4 :=
  let f := normalize (center - eye)
  let s := normalize (cross f up)
  let u := cross s f
  { m00 := s.x, m01 := u.x, m02 := -f.x, m03 := 0
    m10 := s.y, m11 := u.y, m12 := -f.y, m13 := 0
    m20 := s.z, m21 := u.z, m22 := -f.z, m23 := 0
    m30 := -(dot s eye), m31 := -(dot u eye), m32 := dot f eye, m33 := 1 }

/-- Right-handed perspective matrix, modelling `glm::perspective`
(`perspectiveRH_NO`): `tanHalfFovy = tan(fovy/2)`,
`Result[0][0] = 1/(aspect*tanHalfFovy)`, `Result[1][1] = 1/tanHalfFovy`,
`Result[2][2] = -(far+near)/(far-near)`, `Result[2][3] = -1`,
`Result[3][2] = -(2*far*near)/(far-near)`. -/
noncomputable def perspective (fovy aspect zNear zFar : ℝ) : Mat4 :=
  let tanHalfFovy := Real.tan (fovy / 2)
  { m00 := 1 / (aspect * tanHalfFovy), m01 := 0, m02 := 0, m03 := 0
    m10 := 0, m11 := 1 / tanHalfFovy, m12 := 0, m13 := 0
    m20 := 0, m21 := 0, m22 := -(zFar + zNear) / (zFar - zNear), m23 := -1
    m30 := 0, m31 := 0, m32 := -(2 * zFar * zNear) / (zFar - zNear), m33 := 0 }

/-- Camera state, the fields of the `Camera` object that
`ViewManager.cpp` reads and writes (`Position`, `Front`, `Up`, `Yaw`,
`Pitch`, `Zoom`). -/
structure Camera where
  Position : Vec3
  Front : Vec3
  Up : Vec3
  Yaw : ℝ
  Pitch : ℝ
  Zoom : ℝ

/-- Modelled from the spec: `Camera::GetViewMatrix` is not in the
source tree; spec 4.1 states it returns the look-at transform computed
from `position`, `position + front`, `up`, with no side effects. -/
noncomputable def GetViewMatrix (cam : Camera) : Mat4 :=
  lookAt cam.Position (cam.Position + cam.Front) cam.Up

/-- Mouse-tracking globals `gLastX`, `gLastY`, `gFirstMouse`. -/
structure MouseState where
  gLastX : ℝ
  gLastY : ℝ
  gFirstMouse : Bool

/-- Initial values of the mouse-tracking globals:
`gLastX = WINDOW_WIDTH/2 = 500`, `gLastY = WINDOW_HEIGHT/2 = 400`,
`gFirstMouse = true`. -/
def mouseInit : MouseState :=
  { gLastX := 500, gLastY := 400, gFirstMouse := true }

/-- The camera state set by the `ViewManager` constructor:
`Position = (0,5,12)`, `Front = (0,-0.5,-2)` (assigned directly, not
normalized), `Up = (0,1,0)`, `Zoom = 80`.  The constructor calls
`new Camera()` first; the `Camera` default constructor is not in the
source tree and the spec does not fix the default `Yaw`/`Pitch`, so
they are taken as parameters `yaw0`, `pitch0`. -/
def viewManagerCtor (yaw0 pitch0 : ℝ) : Camera :=
  { Position := ⟨0, 5, 12⟩
    Front := ⟨0, -0.5, -2⟩
    Up := ⟨0, 1, 0⟩
    Yaw := yaw0
    Pitch := pitch0
    Zoom := 80 }

/-- The mouse sensitivity constant of `Mouse_Position_Callback`. -/
noncomputable def sensitivity : ℝ := 0.1

/-- The front vector rebuilt from yaw and pitch (degrees):
`(cos(radians yaw) * cos(radians pitch), sin(radians pitch),
sin(radians yaw) * cos(radians pitch))`, before normalization. -/
noncomputable def frontVec (yaw pitch : ℝ) : Vec3 :=
  ⟨Real.cos (radians yaw) * Real.cos (radians pitch),
   Real.sin (radians pitch),
   Real.sin (radians yaw) * Real.cos (radians pitch)⟩

/-- `ViewManager::Mouse_Position_Callback`: on the first event seed
`gLastX`/`gLastY` from the reported position; compute the offsets
`(x - gLastX)` and `(gLastY - y)`, store the position, scale by the
sensitivity, add to yaw and pitch, clamp pitch to `[-89, 89]` by the
two sequential `if` tests, then rebuild and normalize the front
vector. -/
noncomputable def Mouse_Position_Callback (cam : Camera) (ms : MouseState)
    (xMousePos yMousePos : ℝ) : Camera × MouseState :=
  let lastX := if ms.gFirstMouse then xMousePos else ms.gLastX
  let lastY := if ms.gFirstMouse then yMousePos else ms.gLastY
  let xoffset := (xMousePos - lastX) * sensitivity
  let yoffset := (lastY - yMousePos) * sensitivity
  let yaw := cam.Yaw + xoffset
  let pitch1 := cam.Pitch + yoffset
  let pitch2 := if pitch1 > 89 then (89 : ℝ) else pitch1
  let pitch := if pitch2 < -89 then (-89 : ℝ) else pitch2
  let front := normalize (frontVec yaw pitch)
  ({ cam with Yaw := yaw, Pitch := pitch, Front := front },
   { gLastX := xMousePos, gLastY := yMousePos, gFirstMouse := false })

/-- The movement keys polled by `ProcessKeyboardEvents`
(`ESCAPE`, `W`, `S`, `A`, `D`). -/
structure KeyState where
  escapeKey : Bool
  wKey : Bool
  sKey : Bool
  aKey : Bool
  dKey : Bool

/-- `ViewManager::ProcessKeyboardEvents`: request window close on
escape; with `cameraSpeed = 2.5 * deltatime`, `W`/`S` add/subtract
`cameraSpeed * Front` to the position and `A`/`D` subtract/add
`normalize(cross(Front, Up)) * cameraSpeed`, applied in that order.
Returns the updated camera and the close request. -/
noncomputable def ProcessKeyboardEvents (keys : KeyState) (cam : Camera)
    (deltatime : ℝ) : Camera × Bool :=
  let shouldClose := keys.escapeKey
  let cameraSpeed := 2.5 * deltatime
  let p1 := if keys.wKey then cam.Position + cameraSpeed • cam.Front else cam.Position
  let p2 := if keys.sKey then p1 - cameraSpeed • cam.Front else p1
  let p3 := if keys.aKey then p2 - cameraSpeed • normalize (cross cam.Front cam.Up) else p2
  let p4 := if keys.dKey then p3 + cameraSpeed • normalize (cross cam.Front cam.Up) else p3
  ({ cam with Position := p4 }, shouldClose)

/-- Window width constant `WINDOW_WIDTH = 1000`. -/
def WINDOW_WIDTH : ℝ := 1000

/-- Window height constant `WINDOW_HEIGHT = 800`. -/
def WINDOW_HEIGHT : ℝ := 800

/-- Shader uniform name `g_ViewName = "view"`. -/
def g_ViewName : String := "view"

/-- Shader uniform name `g_ProjectionName = "projection"`. -/
def g_ProjectionName : String := "projection"

/-- `ViewManager::PrepareSceneView`: compute the view matrix from the
camera and upload it under `"view"` if a shader manager is bound;
compute the perspective projection from `radians(Zoom)`, the fixed
aspect ratio `WINDOW_WIDTH / WINDOW_HEIGHT` and clip planes
`0.1`/`100.0`, and upload it under `"projection"` if bound.  The
uploads performed are returned as a list, in call order; the camera is
returned unchanged (the method never writes it). -/
noncomputable def PrepareSceneView (shaderBound : Bool) (cam : Camera) :
    Camera × List (String × Mat4) :=
  let view := GetViewMatrix cam
  let uploads1 : List (String × Mat4) :=
    if shaderBound then [(g_ViewName, view)] else []
  let projection := perspective (radians cam.Zoom) (WINDOW_WIDTH / WINDOW_HEIGHT) 0.1 100
  let uploads2 : List (String × Mat4) :=
    if shaderBound then [(g_ProjectionName, projection)] else []
  (cam, uploads1 ++ uploads2)

/-- A window handle, modelling a non-null `GLFWwindow*`. -/
structure GLFWwindow where
  id : ℕ

/-- The observable outcome of one `CreateDisplayWindow` call: the
returned handle, the resulting `m_pWindow` member, the diagnostics
written to `std::cout`, whether `glfwTerminate` was called, and how
many times `glfwCreateWindow` was invoked. -/
structure CreateWindowOutcome where
  ret : Option GLFWwindow
  m_pWindow : Option GLFWwindow
  logged : List String
  terminated : Bool
  createCalls : ℕ

/-- `ViewManager::CreateDisplayWindow`: call `glfwCreateWindow` once
(its result is the parameter `createResult`, the windowing
collaborator being external); on `NULL`, print
"Failed to create GLFW window", call `glfwTerminate` and return `NULL`
without touching `m_pWindow`; otherwise store the handle in
`m_pWindow` and return it. -/
def CreateDisplayWindow (createResult : Option GLFWwindow)
    (m_pWindow0 : Option GLFWwindow) : CreateWindowOutcome :=
  match createResult with
  | none =>
      { ret := none, m_pWindow := m_pWindow0
        logged := ["Failed to create GLFW window"]
        terminated := true, createCalls := 1 }
  | some w =>
      { ret := some w, m_pWindow := some w
        logged := [], terminated := false, createCalls := 1 }

/-! ## Helper lemmas -/

lemma dot_frontVec_self (yaw pitch : ℝ) :
    dot (frontVec yaw pitch) (frontVec yaw pitch) = 1 := by
  have h1 := Real.sin_sq_add_cos_sq (radians yaw)
  have h2 := Real.sin_sq_add_cos_sq (radians pitch)
  simp only [dot, frontVec]
  linear_combination (Real.cos (radians pitch)) ^ 2 * h1 + h2

lemma norm_frontVec (yaw pitch : ℝ) : norm (frontVec yaw pitch) = 1 := by
  rw [norm, dot_frontVec_self, Real.sqrt_one]

lemma normalize_frontVec (yaw pitch : ℝ) :
    normalize (frontVec yaw pitch) = frontVec yaw pitch := by
  simp only [normalize, norm_frontVec, div_one]

lemma norm_normalize_frontVec (yaw pitch : ℝ) :
    norm (normalize (frontVec yaw pitch)) = 1 := by
  rw [normalize_frontVec, norm_frontVec]

/-- The pitch stored by the callback, in closed form. -/
lemma mouse_callback_pitch (cam : Camera) (ms : MouseState) (x y : ℝ)
    (hf : ms.gFirstMouse = false) :
    (Mouse_Position_Callback cam ms x y).1.Pitch =
      (let p1 := cam.Pitch + (ms.gLastY - y) * sensitivity
       if p1 > 89 then (89 : ℝ) else if p1 < -89 then (-89 : ℝ) else p1) := by
  simp only [Mouse_Position_Callback, hf, Bool.false_eq_true, if_false]
  split_ifs <;> first | rfl | linarith

/-- The front stored by the callback is the (already unit-length)
yaw/pitch-derived vector at the stored angles. -/
lemma mouse_callback_front (cam : Camera) (ms : MouseState) (x y : ℝ) :
    (Mouse_Position_Callback cam ms x y).1.Front =
      frontVec (Mouse_Position_Callback cam ms x y).1.Yaw
        (Mouse_Position_Callback cam ms x y).1.Pitch := by
  simp only [Mouse_Position_Callback, normalize_frontVec]

/-- The yaw stored by a non-first callback, in closed form. -/
lemma mouse_callback_yaw (cam : Camera) (ms : MouseState) (x y : ℝ)
    (hf : ms.gFirstMouse = false) :
    (Mouse_Position_Callback cam ms x y).1.Yaw =
      cam.Yaw + (x - ms.gLastX) * sensitivity := by
  simp only [Mouse_Position_Callback, hf, Bool.false_eq_true, if_false]

/-- The pitch stored by a non-first callback whose accumulated pitch
stays within the clamp bounds. -/
lemma mouse_callback_pitch_inbounds (cam : Camera) (ms : MouseState) (x y : ℝ)
    (hf : ms.gFirstMouse = false)
    (h1 : cam.Pitch + (ms.gLastY - y) * sensitivity ≤ 89)
    (h2 : -89 ≤ cam.Pitch + (ms.gLastY - y) * sensitivity) :
    (Mouse_Position_Callback cam ms x y).1.Pitch =
      cam.Pitch + (ms.gLastY - y) * sensitivity := by
  rw [mouse_callback_pitch cam ms x y hf]
  simp only []
  rw [if_neg (by linarith), if_neg (by linarith)]

/-- The mouse-tracking state stored by the callback. -/
lemma mouse_callback_state (cam : Camera) (ms : MouseState) (x y : ℝ) :
    (Mouse_Position_Callback cam ms x y).2 = ⟨x, y, false⟩ :=
  rfl

/-- The callback leaves `Position`, `Up` and `Zoom` untouched. -/
lemma mouse_callback_preserves (cam : Camera) (ms : MouseState) (x y : ℝ) :
    (Mouse_Position_Callback cam ms x y).1.Position = cam.Position ∧
    (Mouse_Position_Callback cam ms x y).1.Up = cam.Up ∧
    (Mouse_Position_Callback cam ms x y).1.Zoom = cam.Zoom :=
  ⟨rfl, rfl, rfl⟩

/-- The length of the constructor-stored front vector is `sqrt 4.25`. -/
lemma norm_ctor_front (yaw0 pitch0 : ℝ) :
    norm ((viewManagerCtor yaw0 pitch0).Front) = Real.sqrt 4.25 := by
  have hd : dot (viewManagerCtor yaw0 pitch0).Front
      (viewManagerCtor yaw0 pitch0).Front = 4.25 := by
    norm_num [viewManagerCtor, dot]
  rw [norm, hd]

lemma sqrt_425_ne_one : Real.sqrt 4.25 ≠ 1 := by
  rw [Ne, Real.sqrt_eq_one]
  norm_num

/-! ## Claims -/

/-- C1: for every non-first pointer-move event whose accumulated pitch
(stored pitch plus sensitivity-scaled y-offset) exceeds 89 degrees
(resp. falls below -89), after `Mouse_Position_Callback` the stored
pitch is exactly 89 (resp. -89) and the recomputed front vector's y
component equals `sin(radians 89)` (resp. its negative): the clamp is
applied before the front vector is recomputed. -/
theorem mouse_pitch_clamp (cam : Camera) (ms : MouseState) (x y : ℝ)
    (hf : ms.gFirstMouse = false) :
    (89 < cam.Pitch + (ms.gLastY - y) * sensitivity →
      (Mouse_Position_Callback cam ms x y).1.Pitch = 89 ∧
      (Mouse_Position_Callback cam ms x y).1.Front.y = Real.sin (radians 89)) ∧
    (cam.Pitch + (ms.gLastY - y) * sensitivity < -89 →
      (Mouse_Position_Callback cam ms x y).1.Pitch = -89 ∧
      (Mouse_Position_Callback cam ms x y).1.Front.y = -Real.sin (radians 89)) := by
  have hp := mouse_callback_pitch cam ms x y hf
  have hfr := mouse_callback_front cam ms x y
  constructor
  · intro h
    have hp89 : (Mouse_Position_Callback cam ms x y).1.Pitch = 89 := by
      rw [hp]; simp only []; rw [if_pos h]
    refine ⟨hp89, ?_⟩
    rw [hfr, hp89]
    simp [frontVec]
  · intro h
    have hp89 : (Mouse_Position_Callback cam ms x y).1.Pitch = -89 := by
      rw [hp]; simp only []
      rw [if_neg (by linarith), if_pos h]
    refine ⟨hp89, ?_⟩
    rw [hfr, hp89]
    have : radians (-89) = -radians 89 := by simp [radians]; ring
    simp [frontVec, this]

/-- C1 witness: concrete clamping events in both directions
(pitch 85 pushed up by 10 degrees, pitch -85 pushed down by 10). -/
theorem mouse_pitch_clamp_witness :
    ((⟨0, 100, false⟩ : MouseState).gFirstMouse = false ∧
      89 < (85 : ℝ) + ((100 : ℝ) - 0) * sensitivity ∧
      (Mouse_Position_Callback ⟨⟨0, 5, 12⟩, ⟨0, -0.5, -2⟩, ⟨0, 1, 0⟩, 0, 85, 80⟩
          ⟨0, 100, false⟩ 0 0).1.Pitch = 89) ∧
    ((-85 : ℝ) + ((0 : ℝ) - 100) * sensitivity < -89 ∧
      (Mouse_Position_Callback ⟨⟨0, 5, 12⟩, ⟨0, -0.5, -2⟩, ⟨0, 1, 0⟩, 0, -85, 80⟩
          ⟨0, 0, false⟩ 0 100).1.Pitch = -89) :=
  ⟨⟨rfl, by norm_num [sensitivity],
      ((mouse_pitch_clamp ⟨⟨0, 5, 12⟩, ⟨0, -0.5, -2⟩, ⟨0, 1, 0⟩, 0, 85, 80⟩
          ⟨0, 100, false⟩ 0 0 rfl).1 (by norm_num [sensitivity])).1⟩,
    ⟨by norm_num [sensitivity],
      ((mouse_pitch_clamp ⟨⟨0, 5, 12⟩, ⟨0, -0.5, -2⟩, ⟨0, 1, 0⟩, 0, -85, 80⟩
          ⟨0, 0, false⟩ 0 100 rfl).2 (by norm_num [sensitivity])).1⟩⟩

/-- C2 (amended): after any pointer-move event — hence in every state
reached by a nonempty sequence of orientation updates — the camera's
front vector has unit length. -/
theorem front_unit_after_update (cam : Camera) (ms : MouseState) (x y : ℝ) :
    norm ((Mouse_Position_Callback cam ms x y).1.Front) = 1 := by
  rw [mouse_callback_front, norm_frontVec]

/-- C2 counterexample: immediately after construction the front vector
is `(0, -0.5, -2)`, stored without normalization, whose length is
`sqrt 4.25`, not 1. -/
theorem front_not_unit_at_ctor : norm ((viewManagerCtor 0 0).Front) ≠ 1 := by
  rw [norm_ctor_front]
  exact sqrt_425_ne_one

/-- C3 (amended): from the pose set by the constructor (position
(0,5,12), front (0,-0.5,-2) stored without normalization, up (0,1,0),
zoom 80) with any default yaw/pitch, a single non-first pointer-move
event with pixel delta (+100,-50) and sensitivity 0.1 adds exactly 10
degrees to yaw and 5 degrees to pitch (clamped if out of bounds), and
the resulting view matrix equals the look-at computation for the front
vector rebuilt from the updated yaw and pitch. -/
theorem end_to_end_pointer_move (yaw0 pitch0 lx ly : ℝ) :
    (Mouse_Position_Callback (viewManagerCtor yaw0 pitch0) ⟨lx, ly, false⟩
        (lx + 100) (ly - 50)).1.Yaw = yaw0 + 10 ∧
    (Mouse_Position_Callback (viewManagerCtor yaw0 pitch0) ⟨lx, ly, false⟩
        (lx + 100) (ly - 50)).1.Pitch =
      (if pitch0 + 5 > 89 then (89 : ℝ)
       else if pitch0 + 5 < -89 then (-89 : ℝ) else pitch0 + 5) ∧
    GetViewMatrix (Mouse_Position_Callback (viewManagerCtor yaw0 pitch0)
        ⟨lx, ly, false⟩ (lx + 100) (ly - 50)).1 =
      lookAt ⟨0, 5, 12⟩
        ((⟨0, 5, 12⟩ : Vec3) +
          frontVec
            (Mouse_Position_Callback (viewManagerCtor yaw0 pitch0)
              ⟨lx, ly, false⟩ (lx + 100) (ly - 50)).1.Yaw
            (Mouse_Position_Callback (viewManagerCtor yaw0 pitch0)
              ⟨lx, ly, false⟩ (lx + 100) (ly - 50)).1.Pitch)
        ⟨0, 1, 0⟩ := by
  refine ⟨?_, ?_, ?_⟩
  · rw [mouse_callback_yaw _ _ _ _ rfl]
    show yaw0 + (lx + 100 - lx) * sensitivity = yaw0 + 10
    rw [show sensitivity = (0.1 : ℝ) from rfl]
    ring
  · rw [mouse_callback_pitch _ _ _ _ rfl]
    show (if pitch0 + (ly - (ly - 50)) * sensitivity > 89 then (89 : ℝ)
          else if pitch0 + (ly - (ly - 50)) * sensitivity < -89 then (-89 : ℝ)
          else pitch0 + (ly - (ly - 50)) * sensitivity) = _
    rw [show pitch0 + (ly - (ly - 50)) * sensitivity = pitch0 + 5 by
      rw [show sensitivity = (0.1 : ℝ) from rfl]; ring]
  · have hpos : (Mouse_Position_Callback (viewManagerCtor yaw0 pitch0)
        ⟨lx, ly, false⟩ (lx + 100) (ly - 50)).1.Position = ⟨0, 5, 12⟩ :=
      (mouse_callback_preserves _ _ _ _).1
    have hup : (Mouse_Position_Callback (viewManagerCtor yaw0 pitch0)
        ⟨lx, ly, false⟩ (lx + 100) (ly - 50)).1.Up = ⟨0, 1, 0⟩ :=
      (mouse_callback_preserves _ _ _ _).2.1
    have hfr := mouse_callback_front (viewManagerCtor yaw0 pitch0)
      ⟨lx, ly, false⟩ (lx + 100) (ly - 50)
    rw [GetViewMatrix, hpos, hup, hfr]

/-- C3 counterexample: the constructor does not normalize the front
vector it stores: the stored front (0,-0.5,-2) differs from
`normalize (0,-0.5,-2)`. -/
theorem ctor_front_not_normalized :
    (viewManagerCtor 0 0).Front ≠ normalize ⟨0, -0.5, -2⟩ := by
  intro h
  have hn : norm (⟨0, -0.5, -2⟩ : Vec3) = Real.sqrt 4.25 := by
    have : dot (⟨0, -0.5, -2⟩ : Vec3) ⟨0, -0.5, -2⟩ = 4.25 := by
      norm_num [dot]
    rw [norm, this]
  have hy := congrArg Vec3.y h
  have hy2 : (-0.5 : ℝ) = -0.5 / Real.sqrt 4.25 := by
    simpa [viewManagerCtor, normalize, hn] using hy
  have hpos : 0 < Real.sqrt 4.25 := Real.sqrt_pos.mpr (by norm_num)
  have hs : Real.sqrt 4.25 = 1 := by
    field_simp at hy2
    linarith
  exact sqrt_425_ne_one hs

/-- C4 (code bug): the first pointer-move event (first-sample flag
set) at the failing input (500,400) right after construction computes
a zero delta — yaw and pitch are unchanged — and seeds the last
position, but it still rebuilds the front vector from yaw and pitch,
replacing the constructor's unnormalized front: the orientation
changes, contradicting the claim. -/
theorem first_mouse_front_jump :
    (Mouse_Position_Callback (viewManagerCtor 0 0) mouseInit 500 400).1.Yaw = 0 ∧
    (Mouse_Position_Callback (viewManagerCtor 0 0) mouseInit 500 400).1.Pitch = 0 ∧
    (Mouse_Position_Callback (viewManagerCtor 0 0) mouseInit 500 400).2 =
      ⟨500, 400, false⟩ ∧
    (Mouse_Position_Callback (viewManagerCtor 0 0) mouseInit 500 400).1.Front ≠
      (viewManagerCtor 0 0).Front := by
  refine ⟨?_, ?_, rfl, ?_⟩
  · norm_num [Mouse_Position_Callback, mouseInit, viewManagerCtor, sensitivity]
  · norm_num [Mouse_Position_Callback, mouseInit, viewManagerCtor, sensitivity]
  · intro h
    have h1 : norm ((Mouse_Position_Callback (viewManagerCtor 0 0)
        mouseInit 500 400).1.Front) = 1 := by
      rw [mouse_callback_front, norm_frontVec]
    rw [h, norm_ctor_front] at h1
    exact sqrt_425_ne_one h1

/-- C5 (amended): for every non-first pointer-move event whose
accumulated pitch stays within the clamp bounds [-89, 89], yaw is
incremented by exactly `(x - lastX) * 0.1` degrees and pitch by
exactly `(lastY - y) * 0.1` degrees (Y inverted), `(x, y)` becomes the
stored last position, and front is rebuilt from the updated yaw and
pitch; applying the deltas dx=10,dy=0 then dx=0,dy=5 increases yaw by
`10 * 0.1` degrees and pitch by `5 * 0.1` degrees.  (Without the
bounds the pitch increment is not exact: the clamp overrides it.) -/
theorem pointer_move_delta (cam : Camera) (ms : MouseState) (x y : ℝ)
    (hf : ms.gFirstMouse = false)
    (h1 : cam.Pitch + (ms.gLastY - y) * 0.1 ≤ 89)
    (h2 : -89 ≤ cam.Pitch + (ms.gLastY - y) * 0.1)
    (h3 : -89 ≤ cam.Pitch) (h4 : cam.Pitch + 0.5 ≤ 89) :
    (Mouse_Position_Callback cam ms x y).1.Yaw =
      cam.Yaw + (x - ms.gLastX) * 0.1 ∧
    (Mouse_Position_Callback cam ms x y).1.Pitch =
      cam.Pitch + (ms.gLastY - y) * 0.1 ∧
    (Mouse_Position_Callback cam ms x y).2.gLastX = x ∧
    (Mouse_Position_Callback cam ms x y).2.gLastY = y ∧
    (Mouse_Position_Callback cam ms x y).1.Front =
      frontVec (Mouse_Position_Callback cam ms x y).1.Yaw
        (Mouse_Position_Callback cam ms x y).1.Pitch ∧
    (Mouse_Position_Callback
        (Mouse_Position_Callback cam ms (ms.gLastX + 10) ms.gLastY).1
        (Mouse_Position_Callback cam ms (ms.gLastX + 10) ms.gLastY).2
        (ms.gLastX + 10) (ms.gLastY - 5)).1.Yaw = cam.Yaw + 10 * 0.1 ∧
    (Mouse_Position_Callback
        (Mouse_Position_Callback cam ms (ms.gLastX + 10) ms.gLastY).1
        (Mouse_Position_Callback cam ms (ms.gLastX + 10) ms.gLastY).2
        (ms.gLastX + 10) (ms.gLastY - 5)).1.Pitch = cam.Pitch + 5 * 0.1 := by
  have hs : sensitivity = (0.1 : ℝ) := rfl
  have hz : (ms.gLastY - ms.gLastY) * sensitivity = 0 := by rw [hs]; ring
  have e1pitch : (Mouse_Position_Callback cam ms (ms.gLastX + 10)
      ms.gLastY).1.Pitch = cam.Pitch := by
    rw [mouse_callback_pitch_inbounds cam ms _ _ hf
      (by rw [hz]; linarith) (by rw [hz]; linarith), hz, add_zero]
  have e1yaw : (Mouse_Position_Callback cam ms (ms.gLastX + 10)
      ms.gLastY).1.Yaw = cam.Yaw + 10 * 0.1 := by
    rw [mouse_callback_yaw cam ms _ _ hf, hs]; ring
  refine ⟨?_, ?_, rfl, rfl, mouse_callback_front cam ms x y, ?_, ?_⟩
  · rw [mouse_callback_yaw cam ms x y hf, hs]
  · rw [mouse_callback_pitch_inbounds cam ms x y hf
      (by rw [hs]; exact h1) (by rw [hs]; exact h2), hs]
  · rw [mouse_callback_yaw _ _ _ _ rfl, e1yaw, mouse_callback_state, hs]
    show cam.Yaw + 10 * 0.1 + (ms.gLastX + 10 - (ms.gLastX + 10)) * 0.1 = _
    ring
  · have hl : ((Mouse_Position_Callback cam ms (ms.gLastX + 10)
        ms.gLastY).2.gLastY - (ms.gLastY - 5)) * sensitivity = 0.5 := by
      rw [mouse_callback_state, hs]
      show (ms.gLastY - (ms.gLastY - 5)) * 0.1 = 0.5
      ring
    rw [mouse_callback_pitch_inbounds _ _ _ _ rfl
      (by rw [hl, e1pitch]; linarith) (by rw [hl, e1pitch]; linarith),
      hl, e1pitch]
    norm_num

/-- C5 witness: a concrete in-bounds event (pitch 10, pointer moving
from (200,300) to (250,280)) and the two-event scenario from the same
state. -/
theorem pointer_move_delta_witness :
    ((⟨200, 300, false⟩ : MouseState).gFirstMouse = false ∧
     (⟨⟨0, 5, 12⟩, ⟨0, -0.5, -2⟩, ⟨0, 1, 0⟩, 0, 10, 80⟩ : Camera).Pitch +
       (((⟨200, 300, false⟩ : MouseState).gLastY - 280) * 0.1) ≤ 89 ∧
     -89 ≤ (⟨⟨0, 5, 12⟩, ⟨0, -0.5, -2⟩, ⟨0, 1, 0⟩, 0, 10, 80⟩ : Camera).Pitch +
       (((⟨200, 300, false⟩ : MouseState).gLastY - 280) * 0.1) ∧
     -89 ≤ (⟨⟨0, 5, 12⟩, ⟨0, -0.5, -2⟩, ⟨0, 1, 0⟩, 0, 10, 80⟩ : Camera).Pitch ∧
     (⟨⟨0, 5, 12⟩, ⟨0, -0.5, -2⟩, ⟨0, 1, 0⟩, 0, 10, 80⟩ : Camera).Pitch + 0.5 ≤ 89) ∧
    (Mouse_Position_Callback ⟨⟨0, 5, 12⟩, ⟨0, -0.5, -2⟩, ⟨0, 1, 0⟩, 0, 10, 80⟩
        ⟨200, 300, false⟩ 250 280).1.Yaw =
      (⟨⟨0, 5, 12⟩, ⟨0, -0.5, -2⟩, ⟨0, 1, 0⟩, 0, 10, 80⟩ : Camera).Yaw +
        (250 - (⟨200, 300, false⟩ : MouseState).gLastX) * 0.1 :=
  ⟨⟨rfl, by norm_num, by norm_num, by norm_num, by norm_num⟩,
    (pointer_move_delta ⟨⟨0, 5, 12⟩, ⟨0, -0.5, -2⟩, ⟨0, 1, 0⟩, 0, 10, 80⟩
      ⟨200, 300, false⟩ 250 280 rfl (by norm_num) (by norm_num)
      (by norm_num) (by norm_num)).1⟩

/-- C5 counterexample: at pitch 89 a pointer-move with y-offset +100
(so accumulated pitch 99) does not increment pitch by exactly
`(lastY - y) * 0.1`: the clamp stores 89 instead of 99. -/
theorem pointer_move_delta_clamped_cex :
    (Mouse_Position_Callback ⟨⟨0, 5, 12⟩, ⟨0, -0.5, -2⟩, ⟨0, 1, 0⟩, 0, 89, 80⟩
        ⟨0, 100, false⟩ 0 0).1.Pitch ≠
      (⟨⟨0, 5, 12⟩, ⟨0, -0.5, -2⟩, ⟨0, 1, 0⟩, 0, 89, 80⟩ : Camera).Pitch +
        (((⟨0, 100, false⟩ : MouseState).gLastY - 0) * 0.1) := by
  rw [mouse_callback_pitch _ _ _ _ rfl]
  norm_num [sensitivity]

/-- C6: for every camera state and frame delta time, `W` adds
`cameraSpeed • Front` to the position and `S` subtracts it, where
`cameraSpeed = 2.5 * deltatime`; with speed 1.0 (deltatime 0.4) the
position moves by exactly `Front`; `D`/`A` add/subtract
`normalize(cross(Front, Up)) • cameraSpeed`, and that strafe
displacement is orthogonal to `Front`. -/
theorem keyboard_translation (cam : Camera) (dt : ℝ) :
    (ProcessKeyboardEvents ⟨false, true, false, false, false⟩ cam dt).1.Position =
      cam.Position + (2.5 * dt) • cam.Front ∧
    (ProcessKeyboardEvents ⟨false, false, true, false, false⟩ cam dt).1.Position =
      cam.Position - (2.5 * dt) • cam.Front ∧
    (ProcessKeyboardEvents ⟨false, true, false, false, false⟩ cam 0.4).1.Position =
      cam.Position + cam.Front ∧
    (ProcessKeyboardEvents ⟨false, false, false, false, true⟩ cam dt).1.Position =
      cam.Position + (2.5 * dt) • normalize (cross cam.Front cam.Up) ∧
    (ProcessKeyboardEvents ⟨false, false, false, true, false⟩ cam dt).1.Position =
      cam.Position - (2.5 * dt) • normalize (cross cam.Front cam.Up) ∧
    dot cam.Front ((2.5 * dt) • normalize (cross cam.Front cam.Up)) = 0 := by
  refine ⟨?_, ?_, ?_, ?_, ?_, ?_⟩
  · simp [ProcessKeyboardEvents]
  · simp [ProcessKeyboardEvents]
  · show cam.Position + (2.5 * 0.4) • cam.Front = cam.Position + cam.Front
    have h1 : (2.5 : ℝ) * 0.4 = 1 := by norm_num
    rw [h1]
    ext <;> simp
  · simp [ProcessKeyboardEvents]
  · simp [ProcessKeyboardEvents]
  · show cam.Front.x * (2.5 * dt * (normalize (cross cam.Front cam.Up)).x) +
      cam.Front.y * (2.5 * dt * (normalize (cross cam.Front cam.Up)).y) +
      cam.Front.z * (2.5 * dt * (normalize (cross cam.Front cam.Up)).z) = 0
    simp only [normalize, cross, div_eq_mul_inv]
    ring

/-- C7: with the shader collaborator unbound, `PrepareSceneView`
uploads nothing and leaves the camera unchanged; with it bound, the
view matrix and the projection matrix are each uploaded exactly once
per call, under the names "view" and "projection", and the camera is
still unchanged. -/
theorem prepare_scene_view_uploads (cam : Camera) :
    PrepareSceneView false cam = (cam, []) ∧
    PrepareSceneView true cam =
      (cam,
       [(g_ViewName, GetViewMatrix cam),
        (g_ProjectionName,
          perspective (radians cam.Zoom) (WINDOW_WIDTH / WINDOW_HEIGHT) 0.1 100)]) :=
  ⟨rfl, rfl⟩

/-- C8: when the windowing collaborator returns a null handle,
`CreateDisplayWindow` logs the diagnostic, returns the null handle,
leaves the stored window member unchanged, and calls the creation
routine only once (no retry). -/
theorem create_window_failure (w0 : Option GLFWwindow) :
    (CreateDisplayWindow none w0).ret = none ∧
    (CreateDisplayWindow none w0).m_pWindow = w0 ∧
    (CreateDisplayWindow none w0).logged = ["Failed to create GLFW window"] ∧
    (CreateDisplayWindow none w0).createCalls = 1 :=
  ⟨rfl, rfl, rfl, rfl⟩

/-- C9: the projection matrix is built from zoom as vertical field of
view in radians, the fixed aspect ratio `WINDOW_WIDTH/WINDOW_HEIGHT`,
and the fixed clip planes 0.1 and 100; and for zooms in the open range
(0, 180), a strictly larger zoom gives strictly smaller focal-scale
diagonal terms (a strictly wider field of view). -/
theorem projection_fov_monotone (z1 z2 : ℝ)
    (h0 : 0 < z1) (h12 : z1 < z2) (h180 : z2 < 180) :
    (∀ cam : Camera, (PrepareSceneView true cam).2 =
      [(g_ViewName, GetViewMatrix cam),
       (g_ProjectionName,
         perspective (radians cam.Zoom) (WINDOW_WIDTH / WINDOW_HEIGHT) 0.1 100)]) ∧
    (perspective (radians z2) (WINDOW_WIDTH / WINDOW_HEIGHT) 0.1 100).m11 <
      (perspective (radians z1) (WINDOW_WIDTH / WINDOW_HEIGHT) 0.1 100).m11 ∧
    (perspective (radians z2) (WINDOW_WIDTH / WINDOW_HEIGHT) 0.1 100).m00 <
      (perspective (radians z1) (WINDOW_WIDTH / WINDOW_HEIGHT) 0.1 100).m00 := by
  have hpi := Real.pi_pos
  have ha1 : 0 < radians z1 / 2 := by
    simp only [radians]
    positivity
  have ha12 : radians z1 / 2 < radians z2 / 2 := by
    simp only [radians]
    nlinarith
  have ha2 : radians z2 / 2 < Real.pi / 2 := by
    simp only [radians]
    nlinarith
  have ht12 : Real.tan (radians z1 / 2) < Real.tan (radians z2 / 2) :=
    Real.tan_lt_tan_of_nonneg_of_lt_pi_div_two ha1.le ha2 ha12
  have ht1 : 0 < Real.tan (radians z1 / 2) :=
    Real.tan_pos_of_pos_of_lt_pi_div_two ha1 (lt_trans ha12 ha2)
  have haspect : (0 : ℝ) < WINDOW_WIDTH / WINDOW_HEIGHT := by
    norm_num [WINDOW_WIDTH, WINDOW_HEIGHT]
  refine ⟨fun cam => rfl, ?_, ?_⟩
  · show 1 / Real.tan (radians z2 / 2) < 1 / Real.tan (radians z1 / 2)
    exact one_div_lt_one_div_of_lt ht1 ht12
  · show 1 / (WINDOW_WIDTH / WINDOW_HEIGHT * Real.tan (radians z2 / 2)) <
      1 / (WINDOW_WIDTH / WINDOW_HEIGHT * Real.tan (radians z1 / 2))
    apply one_div_lt_one_div_of_lt
    · positivity
    · exact (mul_lt_mul_left haspect).mpr ht12

/-- C9 witness: zooms 60 and 90 degrees. -/
theorem projection_fov_monotone_witness :
    ((0 : ℝ) < 60 ∧ (60 : ℝ) < 90 ∧ (90 : ℝ) < 180) ∧
    (perspective (radians 90) (WINDOW_WIDTH / WINDOW_HEIGHT) 0.1 100).m11 <
      (perspective (radians 60) (WINDOW_WIDTH / WINDOW_HEIGHT) 0.1 100).m11 :=
  ⟨⟨by norm_num, by norm_num, by norm_num⟩,
    (projection_fov_monotone 60 90 (by norm_num) (by norm_num) (by norm_num)).2.1⟩

/-- C10: each operation mutates only its own slice of the camera
state: the pointer callback leaves position, up and zoom unchanged;
keyboard processing leaves front, up, yaw, pitch and zoom unchanged;
scene preparation leaves the whole camera unchanged; in particular no
operation after construction modifies zoom. -/
theorem frame_effects (cam : Camera) (ms : MouseState) (x y dt : ℝ)
    (keys : KeyState) (b : Bool) :
    (Mouse_Position_Callback cam ms x y).1.Position = cam.Position ∧
    (Mouse_Position_Callback cam ms x y).1.Up = cam.Up ∧
    (Mouse_Position_Callback cam ms x y).1.Zoom = cam.Zoom ∧
    (ProcessKeyboardEvents keys cam dt).1.Front = cam.Front ∧
    (ProcessKeyboardEvents keys cam dt).1.Up = cam.Up ∧
    (ProcessKeyboardEvents keys cam dt).1.Yaw = cam.Yaw ∧
    (ProcessKeyboardEvents keys cam dt).1.Pitch = cam.Pitch ∧
    (ProcessKeyboardEvents keys cam dt).1.Zoom = cam.Zoom ∧
    (PrepareSceneView b cam).1 = cam :=
  ⟨rfl, rfl, rfl, rfl, rfl, rfl, rfl, rfl, rfl⟩

end ViewMgr
